import Mathlib

/-!
Verification of the Accu-Chek glucometer acquisition server
(`src/server.py`) against its natural-language specification.

The decoder `parse_glucose`, the store update `save_reading`, the
notification callback `notification_handler` and the status trace of one
`ble_loop` iteration are embedded shallowly below.  Python byte strings
become `List Nat` (each element `< 256`); an out-of-range index or a
too-short `struct.unpack` slice, which raise in Python, become `none` in
the `Option` monad.  the exact Python `int` arithmetic becomes `Int`, and
its decimal literals and `round` are idealised over `Rat` with the
round-half-to-even rule Python uses.  Where the source actually computes
in binary floating point (`10 ** exponent` for a negative exponent on
line 111, and the products, division and rounding of lines 119-124), the
binary64 values at the inputs that matter are modelled separately by the
explicit dyadic constants below (`pow10_float_neg1`, `float_pow10_neg6`,
`float_val_A00F`, `float_mgdl_arg_A00F`, `float_convConst`), each
certified correctly rounded where it is used.
-/

attribute [local semireducible] Rat.mul Rat.add Rat.sub Rat.inv Rat.ofScientific

set_option maxRecDepth 100000

namespace AccuChek

/-- A decoded reading: device timestamp string, glucose in mg/dL
(Python `int`), glucose in mmol/L (idealised as an exact rational). -/
structure Reading where
  timestamp : String
  mgdl : Int
  mmol : Rat
deriving DecidableEq, Repr

/-- The global mutable state of the server relevant to the claims:
`latest_status` and `readings_cache` from `server.py` lines 19-20. -/
structure ServerState where
  latest_status : String
  readings_cache : List Reading
deriving DecidableEq, Repr

/-- The Python built-in `round` to an integer: round-half-to-even
(bankers rounding), idealised over exact rationals. -/
def pyRound (q : Rat) : Int :=
  let n := ⌊q⌋
  let r := q - n
  if r < 1/2 then n
  else if 1/2 < r then n + 1
  else if n % 2 = 0 then n else n + 1

/-- The Python `round(x, 1)`: round to one decimal place, half to even. -/
def pyRoundTo1 (q : Rat) : Rat := (pyRound (q * 10) : Rat) / 10

/-- The conversion constant `18.0182` from lines 120 and 124, taken as
the exact decimal it denotes — the value the specification works with.
The Python literal actually denotes the binary64 double nearest that
decimal (`float_convConst` below, part of the C1 correction). -/
def convConst : Rat := 180182 / 10000

/-- Signed 12-bit mantissa of an SFLOAT word, lines 100 and 104-105:
`mantissa = raw & 0x0FFF`, then `if mantissa >= 0x0800:
mantissa = -((0x1000 - mantissa))`. -/
def sfloatMantissa (raw : Nat) : Int :=
  let mantissa : Int := (raw &&& 0x0FFF : Nat)
  if 0x0800 ≤ mantissa then -(0x1000 - mantissa) else mantissa

/-- Signed 4-bit exponent of an SFLOAT word, lines 101 and 108-109:
`exponent = raw >> 12`, then `if exponent >= 0x08:
exponent = -((0x10 - exponent))`. -/
def sfloatExponent (raw : Nat) : Int :=
  let exponent : Int := (raw >>> 12 : Nat)
  if 0x08 ≤ exponent then -(0x10 - exponent) else exponent

/-- Line 111, `val = mantissa * (10 ** exponent)`, idealised as exact
rational arithmetic — the value the specification ascribes to the
decoder.  Python actually evaluates `10 ** exponent` in binary64
floating point when the exponent is negative, so the program can drift
from this exact value; the drift is certified concretely at exponent -1
in the C4 correction and at the raw word 0xA00F in the C1 correction. -/
def sfloatValue (raw : Nat) : Rat :=
  (sfloatMantissa raw : Rat) * 10 ^ sfloatExponent raw

/-- Lines 113-124: derive `(mgdl, mmol)` from the flags byte and the raw
SFLOAT word.  Bit 2 of the flags clear means kg/L scale.  The products,
the division and the rounding are idealised over exact rationals with
round-half-even; the program performs them in binary64, which changes
the rounded output at boundary inputs (at raw 0xA00F the binary64 chain
gives mgdl 1 where these exact formulas give 2 — the C1 correction). -/
def glucoseFields (flags raw : Nat) : Int × Rat :=
  let val := sfloatValue raw
  if flags &&& 0x04 == 0 then
    let mgdl := pyRound (val * 100000)
    (mgdl, pyRoundTo1 ((mgdl : Rat) / convConst))
  else
    let mmol := pyRoundTo1 (val * 1000)
    (pyRound (mmol * convConst), mmol)

/-- The Python format spec 02d: decimal digits of `n`, left-padded with the
digit 0
to width 2 (wider values are printed in full). -/
def pad2 (n : Nat) : String := if n < 10 then "0" ++ Nat.repr n else Nat.repr n

/-- Line 94: the timestamp f-string.  Note the year is interpolated
with no format spec, hence without zero-padding. -/
def dtString (year month day hours minutes seconds : Nat) : String :=
  Nat.repr year ++ "-" ++ pad2 month ++ "-" ++ pad2 day ++ " " ++
    pad2 hours ++ ":" ++ pad2 minutes ++ ":" ++ pad2 seconds

/-- The struct.unpack of two bytes at index i as a little-endian 16-bit
word;
`none` when the slice holds fewer than 2 bytes (a `struct.error`). -/
def readU16LE (data : List Nat) (i : Nat) : Option Nat := do
  let lo ← data[i]?
  let hi ← data[i + 1]?
  return lo + 256 * hi

/-- Lines 69-126, `parse_glucose(data)`.  Byte 0 is flags; 2 sequence
bytes are skipped; 7 base-time bytes start at index 3; if flags bit 0 is
set, 2 time-offset bytes are skipped, so the concentration word is read
at index 12 instead of 10.  Any Python `IndexError`/`struct.error` is
`none`. -/
def parse_glucose (data : List Nat) : Option (String × Int × Rat) := do
  let flags ← data[0]?
  let year ← readU16LE data 3
  let month ← data[5]?
  let day ← data[6]?
  let hours ← data[7]?
  let minutes ← data[8]?
  let seconds ← data[9]?
  let raw ← readU16LE data (if flags &&& 0x01 == 1 then 12 else 10)
  return (dtString year month day hours minutes seconds, glucoseFields flags raw)

/-- Lines 51-66, `save_reading`.  The CSV write (the Persistence Sink
call, lines 54-57) happens first; only afterwards is `readings_cache`
replaced by the one-element list (lines 60-64).  The sink is external,
so its outcome is a parameter: when it raises (`sink_fails = true`) the
exception leaves `save_reading` before the cache assignment runs, which
we model as `Except.error`; the on-disk file content itself is outside
the model. -/
def save_reading (sink_fails : Bool) (st : ServerState)
    (timestamp : String) (mgdl : Int) (mmol : Rat) : Except String ServerState :=
  if sink_fails then Except.error "sink write raised"
  else Except.ok { st with readings_cache := [⟨timestamp, mgdl, mmol⟩] }

/-- Lines 128-134, `notification_handler`: decode, then commit; every
exception (decode failure or a sink failure escaping `save_reading`) is
caught by the bare `except`, which only prints, so the state visible
after the handler is whatever had been assigned before the raise. -/
def notification_handler (sink_fails : Bool) (st : ServerState)
    (data : List Nat) : ServerState :=
  match parse_glucose data with
  | some (dt, mgdl, mmol) =>
    match save_reading sink_fails st dt mgdl mmol with
    | Except.ok st' => st'
    | Except.error _ => st
  | none => st

/-- Line 29-32, the `/api/data` route: a snapshot of status and cache. -/
def get_data (st : ServerState) : String × List Reading :=
  (st.latest_status, st.readings_cache)

/-- Environment outcomes of one `ble_loop` iteration: the name of the
discovered device, if any, and whether the connection attempt (the
`async with BleakClient` block, lines 162-174) succeeded. -/
structure BleEnv where
  device : Option String
  connect_ok : Bool
deriving DecidableEq, Repr

/-- Lines 140-184: the successive values assigned to `latest_status`
during one iteration of the `while True` loop, in order.  A scan
failure, connect failure or subscribe failure is caught by the
`except` blocks, which only `print`; the iteration then reaches
`asyncio.sleep(2.0)` and the next iteration starts over. -/
def ble_iteration_statuses (env : BleEnv) : List String :=
  "Scanning for Accu-Chek..." ::
    match env.device with
    | none => []
    | some name =>
      ("Connecting to " ++ name ++ "...") ::
        (if env.connect_ok then ["Connected! Waiting for Data..."] else [])

/-- The statuses published by the first `n` iterations of `ble_loop`,
for a stream of per-iteration environment outcomes. -/
def ble_trace (envs : Nat → BleEnv) : Nat → List String
  | 0 => []
  | n + 1 => ble_trace envs n ++ ble_iteration_statuses (envs n)

/-- The binary64 double nearest to 1/10, `3602879701896397 * 2 ^ (-55)`:
the value CPython produces for `10 ** -1` on IEEE-754 hardware. -/
def pow10_float_neg1 : Rat := 3602879701896397 / 2 ^ 55

/-- Line 111 as Python actually computes it when the decoded exponent is
`-1`: `mantissa * (10 ** -1)` with `10 ** -1` a binary64 float.
(Multiplying a double by the exact integer 1 is exact, so for
mantissa 1 the product is `pow10_float_neg1` itself.) -/
def val_line111_float_expNeg1 (mantissa : Int) : Rat :=
  (mantissa : Rat) * pow10_float_neg1

/-- The exact mathematical product `mantissa * 10 ^ exponent` that the
specification says line 111 computes. -/
def val_exact (mantissa exponent : Int) : Rat :=
  (mantissa : Rat) * 10 ^ exponent

/-- A 12-byte payload: flags 0x00, sequence 0, base time 2024-03-15
08:30:00, SFLOAT word 0xD064 (mantissa 100, exponent -3, value 0.1). -/
def payload0 : List Nat := [0, 0, 0, 232, 7, 3, 15, 8, 30, 0, 100, 208]

/-- Like `payload0` but with year bytes encoding 999 and date
0001-01 00:00:00. -/
def payload999 : List Nat := [0, 0, 0, 231, 3, 1, 1, 0, 0, 0, 100, 208]

/-- Like `payload0` but with concentration word 0xA00F (bytes 0x0F,
0xA0): mantissa 15, exponent -6, exact value 15/10^6 — a
rounding-boundary input where binary64 and exact arithmetic part ways. -/
def payloadA00F : List Nat := [0, 0, 0, 232, 7, 3, 15, 8, 30, 0, 15, 160]

/-- The binary64 double nearest 10^-6 (mantissa below 2^53, within half
an ulp of 10^-6): the value CPython computes for `10 ** -6`. -/
def float_pow10_neg6 : Rat := 4722366482869645 / 2 ^ 72

/-- The binary64 product `15 * float_pow10_neg6`: what line 111 computes
at raw word 0xA00F (correctly rounded, certified in the C1 theorems). -/
def float_val_A00F : Rat := 8854437155380584 / 2 ^ 69

/-- The binary64 product `float_val_A00F * 100000`: the argument that
line 119 hands to `round` at raw word 0xA00F.  It lies strictly below
3/2, so the program rounds it to 1. -/
def float_mgdl_arg_A00F : Rat := 6755399441055743 / 2 ^ 52

/-- The binary64 double nearest 18.0182 — what the literal on lines 120
and 124 actually denotes in the program, as opposed to `convConst`. -/
def float_convConst : Rat := 5071672425367942 / 2 ^ 48

example : parse_glucose payload0 = some ("2024-03-15 08:30:00", 10000, 555) := by decide

example : parse_glucose payload999 = some ("999-01-01 00:00:00", 10000, 555) := by decide

example : parse_glucose [0, 0, 0, 231, 3, 1, 1, 0, 0] = none := by decide

/-- Inversion principle for `parse_glucose`: a successful decode
determines the flags byte, the seven base-time fields, and the raw
concentration word read at offset 12 (time-offset flag set) or 10. -/
theorem parse_glucose_eq_some_iff (data : List Nat) (ts : String) (g : Int) (m : Rat) :
    parse_glucose data = some (ts, g, m) ↔
    ∃ flags year month day hh mi ss raw,
      data[0]? = some flags ∧
      readU16LE data 3 = some year ∧
      data[5]? = some month ∧ data[6]? = some day ∧ data[7]? = some hh ∧
      data[8]? = some mi ∧ data[9]? = some ss ∧
      readU16LE data (if flags &&& 1 == 1 then 12 else 10) = some raw ∧
      ts = dtString year month day hh mi ss ∧ (g, m) = glucoseFields flags raw := by
  simp only [parse_glucose, bind, Option.bind_eq_some, Option.pure_def, Option.some.injEq,
    Prod.mk.injEq]
  constructor
  · rintro ⟨flags, h0, year, h1, month, h2, day, h3, hh, h4, mi, h5, ss, h6, raw, h7, hts, hgm⟩
    exact ⟨flags, year, month, day, hh, mi, ss, raw, h0, h1, h2, h3, h4, h5, h6, h7,
      hts.symm, hgm.symm⟩
  · rintro ⟨flags, year, month, day, hh, mi, ss, raw, h0, h1, h2, h3, h4, h5, h6, h7, hts, hgm⟩
    exact ⟨flags, h0, year, h1, month, h2, day, h3, hh, h4, mi, h5, ss, h6, raw, h7,
      hts.symm, hgm.symm⟩

/-- C1 counterexample: the payload `payloadA00F` is accepted with kg/L
flags and raw concentration word 0xA00F (mantissa 15, exponent -6,
exact value 15/10^6).  Over the exact decoded value the claimed formula
gives `round(value * 100000) = round(3/2) = 2` — and that is what the
exact-arithmetic embedding returns — but the program computes the chain
in binary64: `10 ** -6`, then the product by 15, then the product by
100000, each certified below to be within half an ulp of the exact
operation result (so each stated dyadic is the correctly rounded
double).  The final argument lies strictly below 3/2, so line 119
rounds it to mgdl = 1, not 2: the claimed equation fails on the code at
this reachable input. -/
theorem C1_counterexample :
    parse_glucose payloadA00F = some ("2024-03-15 08:30:00", 2, 1/10) ∧
    sfloatValue 0xA00F = 15 / 10 ^ 6 ∧
    pyRound (sfloatValue 0xA00F * 100000) = 2 ∧
    |float_pow10_neg6 - 1 / 10 ^ 6| ≤ 1 / 2 ^ 73 ∧
    |float_val_A00F - 15 * float_pow10_neg6| ≤ 1 / 2 ^ 70 ∧
    |float_mgdl_arg_A00F - float_val_A00F * 100000| ≤ 1 / 2 ^ 53 ∧
    1 / 2 < float_mgdl_arg_A00F ∧ float_mgdl_arg_A00F < 3 / 2 ∧
    pyRound float_mgdl_arg_A00F = 1 := by
  refine ⟨by decide, by decide, by decide, ?_, ?_, ?_, ?_, ?_, by decide⟩
  · rw [abs_sub_le_iff]
    constructor <;> norm_num [float_pow10_neg6]
  · rw [abs_sub_le_iff]
    constructor <;> norm_num [float_pow10_neg6, float_val_A00F]
  · rw [abs_sub_le_iff]
    constructor <;> norm_num [float_val_A00F, float_mgdl_arg_A00F]
  · norm_num [float_mgdl_arg_A00F]
  · norm_num [float_mgdl_arg_A00F]

/-- C1 amended: every accepted payload determines one flags byte and one
concentration word from which both glucose fields are computed together
through the unit-selector branch — never independently (stated here over
the exact-decimal idealisation of that branch); the arithmetic of the
branch, however, runs in binary64 in the program: at raw word 0xA00F
the exact formula rounds to 2 while the certified binary64 chain rounds
to 1, and the division constant in the program is the binary64 double
nearest 18.0182, within 2^-49 of the decimal 18.0182 but not equal to
it. -/
theorem C1_same_word_branch_float_semantics :
    (∀ (data : List Nat) (ts : String) (g : Int) (m : Rat),
      parse_glucose data = some (ts, g, m) →
      ∃ flags raw, data[0]? = some flags ∧
        readU16LE data (if flags &&& 1 == 1 then 12 else 10) = some raw ∧
        (g, m) = glucoseFields flags raw) ∧
    pyRound (sfloatValue 0xA00F * 100000) = 2 ∧
    pyRound float_mgdl_arg_A00F = 1 ∧
    float_convConst ≠ convConst ∧
    |float_convConst - convConst| ≤ 1 / 2 ^ 49 := by
  refine ⟨?_, by decide, by decide, by norm_num [float_convConst, convConst], ?_⟩
  · intro data ts g m h
    rcases (parse_glucose_eq_some_iff data ts g m).1 h with
      ⟨flags, year, month, day, hh, mi, ss, raw, h0, h1, h2, h3, h4, h5, h6, h7, hts, hgm⟩
    exact ⟨flags, raw, h0, h7, hgm⟩
  · rw [abs_sub_le_iff]
    constructor <;> norm_num [float_convConst, convConst]

/-- C3: a payload shorter than 10 bytes is always rejected by
`parse_glucose`, and the notification handler leaves the server state
exactly as it was: no fragmentary reading reaches the cache or the sink. -/
theorem C3_short_payload_rejected (data : List Nat) (h : data.length < 10) :
    parse_glucose data = none ∧
    ∀ (sink_fails : Bool) (st : ServerState), notification_handler sink_fails st data = st := by
  have hp : parse_glucose data = none := by
    cases hq : parse_glucose data with
    | none => rfl
    | some r =>
      obtain ⟨ts, g, m⟩ := r
      rcases (parse_glucose_eq_some_iff data ts g m).1 hq with
        ⟨flags, year, month, day, hh, mi, ss, raw, h0, h1, h2, h3, h4, h5, h6, h7, -, -⟩
      obtain ⟨h9, -⟩ := List.getElem?_eq_some_iff.1 h6
      omega
  exact ⟨hp, fun sf st => by simp [notification_handler, hp]⟩

/-- Witness for C3 at the one-byte payload `[0]`. -/
theorem C3_short_payload_rejected_witness :
    parse_glucose [0] = none ∧
    notification_handler true ⟨"Initializing...", []⟩ [0] = ⟨"Initializing...", []⟩ :=
  ⟨(C3_short_payload_rejected [0] (by decide)).1,
   (C3_short_payload_rejected [0] (by decide)).2 true ⟨"Initializing...", []⟩⟩

/-- C9 counterexample: `payload999` (year bytes 0x03E7 = 999) is
accepted, and its timestamp is the 18-character `999-01-01 00:00:00`:
the year is not rendered as four digits and the string is not the
fixed-width 19-character `YYYY-MM-DD HH:MM:SS` shape the claim states.
The timestamp construction involves no arithmetic beyond the byte
reads, so this is independent of the rounding idealisation (and the
glucose components 10000 and 555.0 agree with the binary64 run at this
payload). -/
theorem C9_counterexample :
    parse_glucose payload999 = some ("999-01-01 00:00:00", 10000, 555) ∧
    ("999-01-01 00:00:00" : String).length = 18 := by decide

/-- C9 amended: the timestamp of every accepted payload is built from
the little-endian 16-bit year rendered with no zero-padding, followed by
two-digit zero-padded month, day, hour, minute and second fields; it has
the fixed-width four-digit-year shape only when the year happens to lie
in 1000..9999 (and each single-byte field is below 100). -/
theorem C9_timestamp_shape (data : List Nat) (ts : String) (g : Int) (m : Rat)
    (h : parse_glucose data = some (ts, g, m)) :
    ∃ year month day hh mi ss,
      readU16LE data 3 = some year ∧ data[5]? = some month ∧ data[6]? = some day ∧
      data[7]? = some hh ∧ data[8]? = some mi ∧ data[9]? = some ss ∧
      ts = Nat.repr year ++ "-" ++ pad2 month ++ "-" ++ pad2 day ++ " " ++
        pad2 hh ++ ":" ++ pad2 mi ++ ":" ++ pad2 ss := by
  rcases (parse_glucose_eq_some_iff data ts g m).1 h with
    ⟨flags, year, month, day, hh, mi, ss, raw, h0, h1, h2, h3, h4, h5, h6, h7, hts, hgm⟩
  exact ⟨year, month, day, hh, mi, ss, h1, h2, h3, h4, h5, h6, by rw [hts]; rfl⟩

/-- C2: the SFLOAT field decoders realise 12-bit (mantissa) and 4-bit
(exponent) twos-complement: each result is congruent to its raw field
modulo 2^12 resp. 2^4 and lies in the signed range; in particular raw
0x0FFF gives mantissa -1 and exponent 0, raw 0x07FF gives mantissa 2047,
and exponent fields 0xD and 0x3 give -3 and 3. -/
theorem C2_sfloat_twos_complement (raw : Nat) (h : raw < 65536) :
    (sfloatMantissa raw % 4096 = (raw : Int) % 4096 ∧
      -2048 ≤ sfloatMantissa raw ∧ sfloatMantissa raw < 2048) ∧
    (sfloatExponent raw % 16 = (raw : Int) / 4096 % 16 ∧
      -8 ≤ sfloatExponent raw ∧ sfloatExponent raw < 8) ∧
    sfloatMantissa 0x0FFF = -1 ∧ sfloatExponent 0x0FFF = 0 ∧
    sfloatMantissa 0x07FF = 2047 ∧
    sfloatExponent 0xD000 = -3 ∧ sfloatExponent 0x3000 = 3 := by
  have hm : raw &&& 4095 = raw % 4096 := by
    simpa using Nat.and_pow_two_sub_one_eq_mod raw 12
  have he : raw >>> 12 = raw / 4096 := by
    simpa using Nat.shiftRight_eq_div_pow raw 12
  refine ⟨?_, ?_, by decide, by decide, by decide, by decide, by decide⟩
  · simp only [sfloatMantissa, hm]
    split_ifs <;> omega
  · simp only [sfloatExponent, he]
    have : raw / 4096 < 16 := by omega
    split_ifs <;> omega

/-- Witness for C2 at the raw word 0x0FFF. -/
theorem C2_sfloat_twos_complement_witness :
    (sfloatMantissa 4095 % 4096 = ((4095 : Nat) : Int) % 4096 ∧
      -2048 ≤ sfloatMantissa 4095 ∧ sfloatMantissa 4095 < 2048) ∧
    (sfloatExponent 4095 % 16 = ((4095 : Nat) : Int) / 4096 % 16 ∧
      -8 ≤ sfloatExponent 4095 ∧ sfloatExponent 4095 < 8) ∧
    sfloatMantissa 0x0FFF = -1 ∧ sfloatExponent 0x0FFF = 0 ∧
    sfloatMantissa 0x07FF = 2047 ∧
    sfloatExponent 0xD000 = -3 ∧ sfloatExponent 0x3000 = 3 :=
  C2_sfloat_twos_complement 4095 (by decide)

/-- C4 counterexample: for mantissa 1 and exponent -1, line 111 as
Python executes it (binary64 `10 ** -1`) does not produce the exact
product 1/10. -/
theorem C4_counterexample :
    val_line111_float_expNeg1 1 ≠ val_exact 1 (-1) := by
  norm_num [val_line111_float_expNeg1, val_exact, pow10_float_neg1]

/-- C4 amended: `value` is computed exactly only in the idealisation;
Python evaluates `10 ** exponent` in binary64 for negative exponents, so
at mantissa 1, exponent -1 the computed value is the double nearest 1/10
(within 2^-55 of it) but not equal — indeed no dyadic rational
`m / 2 ^ k` (i.e. no binary float of any precision) can equal the exact
value 1/10. -/
theorem C4_binary_float_not_exact :
    val_line111_float_expNeg1 1 ≠ val_exact 1 (-1) ∧
    |val_line111_float_expNeg1 1 - val_exact 1 (-1)| < 1 / 2 ^ 55 ∧
    ∀ (m : Int) (k : Nat), (m : Rat) / 2 ^ k ≠ val_exact 1 (-1) := by
  refine ⟨by norm_num [val_line111_float_expNeg1, val_exact, pow10_float_neg1], ?_, ?_⟩
  · rw [abs_sub_lt_iff]
    constructor <;> norm_num [val_line111_float_expNeg1, val_exact, pow10_float_neg1]
  · intro m k hmk
    have hval : val_exact 1 (-1) = 1 / 10 := by norm_num [val_exact]
    rw [hval, div_eq_div_iff (by positivity) (by norm_num)] at hmk
    have hmk' : (m : Rat) * 10 = 2 ^ k := by linarith
    have hz : m * 10 = 2 ^ k := by exact_mod_cast hmk'
    have h5 : (5 : Int) ∣ 2 ^ k := ⟨2 * m, by linarith⟩
    have hp : Prime (5 : Int) := by norm_num
    have := hp.dvd_of_dvd_pow h5
    norm_num at this

/-- C5 counterexample: decoding `payload0` with a failing Persistence
Sink leaves `readings_cache` empty — the reading is not committed to the
Reading Store as it would be with a working sink. -/
theorem C5_counterexample :
    (notification_handler true ⟨"Initializing...", []⟩ payload0).readings_cache = [] ∧
    (notification_handler false ⟨"Initializing...", []⟩ payload0).readings_cache =
      [⟨"2024-03-15 08:30:00", 10000, 555⟩] := by decide

/-- C5 amended: a sink failure never unwinds into the engine — the
notification handler is total and returns normally — but the reading is
then NOT committed: the server state is left exactly as it was, because
the cache assignment in `save_reading` sits after the sink write and is
skipped when the write raises. -/
theorem C5_sink_failure_not_committed (st : ServerState) (data : List Nat) :
    notification_handler true st data = st := by
  unfold notification_handler
  cases parse_glucose data with
  | none => rfl
  | some r =>
    obtain ⟨dt, g, m⟩ := r
    rfl

/-- Bit facts used for C6, proved for every possible flags byte. -/
theorem flags_lor_one_facts : ∀ f < 256, f &&& 1 = 0 →
    ((f ||| 1) &&& 1 == 1) = true ∧ (f &&& 1 == 1) = false ∧
    (f ||| 1) &&& 4 = f &&& 4 := by decide

/-- Bit facts used for C10, proved for every possible flags byte. -/
theorem flags_xor_two_facts : ∀ f < 256,
    (f ^^^ 2) &&& 1 = f &&& 1 ∧ (f ^^^ 2) &&& 4 = f &&& 4 := by decide

/-- C6: setting the time-offset flag merely skips the two offset bytes;
with identical base-time bytes and the concentration word placed after
the optional offset field, the decoded reading (in particular its
timestamp) is identical whatever the offset bytes hold. -/
theorem C6_time_offset_skipped
    (f b1 b2 b3 b4 b5 b6 b7 b8 b9 o1 o2 : Nat) (rest : List Nat)
    (hf : f < 256) (h0 : f &&& 1 = 0) :
    parse_glucose
      ((f ||| 1) :: b1 :: b2 :: b3 :: b4 :: b5 :: b6 :: b7 :: b8 :: b9 :: o1 :: o2 :: rest) =
    parse_glucose (f :: b1 :: b2 :: b3 :: b4 :: b5 :: b6 :: b7 :: b8 :: b9 :: rest) := by
  obtain ⟨ha, hb, hc⟩ := flags_lor_one_facts f hf h0
  simp only [parse_glucose, readU16LE, glucoseFields, bind, Option.bind,
    List.getElem?_cons_zero, List.getElem?_cons_succ, ha, hb, hc, if_true, if_false,
    Bool.false_eq_true]

/-- Witness for C6: concrete payloads with and without the offset. -/
theorem C6_time_offset_skipped_witness :
    parse_glucose [1, 0, 0, 232, 7, 3, 15, 8, 30, 0, 99, 88, 100, 208] =
    parse_glucose [0, 0, 0, 232, 7, 3, 15, 8, 30, 0, 100, 208] :=
  C6_time_offset_skipped 0 0 0 232 7 3 15 8 30 0 99 88 [100, 208] (by decide) (by decide)

/-- C7 counterexample: in an iteration whose connect attempt fails, the
statuses published are exactly the Scanning and Connecting strings; the
failure itself is never published to status (the `except` only prints),
contradicting the claim that the failure is published. -/
theorem C7_counterexample :
    ble_iteration_statuses ⟨some "Accu-Chek Instant", false⟩ =
      ["Scanning for Accu-Chek...", "Connecting to Accu-Chek Instant..."] ∧
    "Connection Error: timeout" ∉
      ble_iteration_statuses ⟨some "Accu-Chek Instant", false⟩ := by decide

/-- C7 amended: every iteration — in particular the one following a
failed connect, after the fixed 2-second idle delay — publishes the
Scanning status as its first action, so the engine is never left stuck
in Connecting; each iteration is a total function of its environment
outcome, so the loop never terminates on a peer-side fault.  The failure
itself is only logged, never published to status. -/
theorem C7_rescan_after_failure (env : BleEnv) (envs : Nat → BleEnv) (n : Nat) :
    (ble_iteration_statuses env).head? = some "Scanning for Accu-Chek..." ∧
    ble_trace envs (n + 1) = ble_trace envs n ++ ble_iteration_statuses (envs n) :=
  ⟨rfl, rfl⟩

/-- C8: whenever `save_reading` commits (the sink write returns), the
readings visible to a `/api/data` snapshot are exactly the one-element
list holding the just-committed reading — most recent first. -/
theorem C8_single_latest_reading (sf : Bool) (st st' : ServerState)
    (ts : String) (g : Int) (m : Rat)
    (h : save_reading sf st ts g m = Except.ok st') :
    (get_data st').2 = [⟨ts, g, m⟩] := by
  cases sf with
  | true => simp [save_reading] at h
  | false =>
    simp only [save_reading, Bool.false_eq_true, if_false, Except.ok.injEq] at h
    rw [← h]
    rfl

/-- Witness for C8 at a concrete commit. -/
theorem C8_single_latest_reading_witness :
    (get_data ⟨"s", [⟨"t", 5, 11/2⟩]⟩).2 = [⟨"t", 5, 11/2⟩] :=
  C8_single_latest_reading false ⟨"s", []⟩ ⟨"s", [⟨"t", 5, 11/2⟩]⟩ "t" 5 (11/2) rfl

/-- C10: flags bit 1 (type-and-sample-location-present) never affects
the decode: toggling it leaves the result of `parse_glucose` unchanged
on every payload, since no bytes are skipped for that field. -/
theorem C10_bit1_ignored (f : Nat) (rest : List Nat) (hf : f < 256) :
    parse_glucose ((f ^^^ 2) :: rest) = parse_glucose (f :: rest) := by
  obtain ⟨ha, hb⟩ := flags_xor_two_facts f hf
  cases hcond : (f &&& 1 == 1) <;>
    simp only [parse_glucose, readU16LE, glucoseFields, bind, Option.bind,
      List.getElem?_cons_zero, List.getElem?_cons_succ, ha, hb, hcond, if_true, if_false,
      Bool.false_eq_true]

/-- Witness for C10: toggling bit 1 of the flags byte of `payload0`. -/
theorem C10_bit1_ignored_witness :
    parse_glucose [2, 0, 0, 232, 7, 3, 15, 8, 30, 0, 100, 208] =
    parse_glucose [0, 0, 0, 232, 7, 3, 15, 8, 30, 0, 100, 208] :=
  C10_bit1_ignored 0 [0, 0, 232, 7, 3, 15, 8, 30, 0, 100, 208] (by decide)

/-- Witness for the amended C9 at the concrete payload `payload0`. -/
theorem C9_timestamp_shape_witness :
    ∃ year month day hh mi ss,
      readU16LE payload0 3 = some year ∧ payload0[5]? = some month ∧
      payload0[6]? = some day ∧ payload0[7]? = some hh ∧ payload0[8]? = some mi ∧
      payload0[9]? = some ss ∧
      "2024-03-15 08:30:00" = Nat.repr year ++ "-" ++ pad2 month ++ "-" ++ pad2 day ++ " " ++
        pad2 hh ++ ":" ++ pad2 mi ++ ":" ++ pad2 ss :=
  C9_timestamp_shape payload0 "2024-03-15 08:30:00" 10000 555 (by decide)

end AccuChek
